import Mathlib

set_option maxRecDepth 8000

namespace UpdatePages

/-!
A shallow embedding of `src/.misc/update_pages.py`: a maintenance script that
rebuilds a navigation sidebar fragment per page and splices it into a fixed
list of static HTML files, also ensuring a font stylesheet link is present.
Python strings are modelled as `String` / `List Char`; the filesystem is an
oracle `String → Option String`; the lazy regex `<aside.*?>.*?</aside>` and
`str.replace` are modelled by explicit scanning functions below.
-/

/-- Source constant `design_dir = ".designs"`. -/
def design_dir : String := ".designs"

/-- Source dict `files` (Python dicts preserve insertion order). -/
def files : List (String × String) :=
  [("dashboard.html", "Dashboard"),
   ("participants.html", "Participants"),
   ("reports.html", "Reports & Docs"),
   ("ai.html", "AI Assistant"),
   ("toolkit.html", "Toolkit"),
   ("ndisplans.html", "NDIS Plans"),
   ("general.html", "General"),
   ("profile.html", "Profile")]

/-- Base style shared by both branches of `link_class`. -/
def link_base : String :=
  "flex items-center gap-3 px-2 py-2.5 rounded-DEFAULT transition-colors group"

/-- Suffix appended by `link_class` when the link is the active page. -/
def link_active_suffix : String := " bg-primary/10 text-primary"

/-- Suffix appended by `link_class` when the link is not the active page. -/
def link_hover_suffix : String :=
  " text-text-sub-light dark:text-text-sub-dark hover:bg-gray-50 dark:hover:bg-slate-700/50 hover:text-gray-900 dark:hover:text-white"

/-- Base style shared by both branches of `icon_class`. -/
def icon_base : String := "material-icons-round text-[20px] transition-colors"

/-- Suffix appended by `icon_class` when the link is not the active page
(the active branch returns the base unchanged). -/
def icon_hover_suffix : String := " group-hover:text-primary"

/-- Inner function `link_class` of `get_sidebar`. -/
def link_class (active_page page_name : String) : String :=
  if page_name = active_page then link_base ++ link_active_suffix
  else link_base ++ link_hover_suffix

/-- Inner function `icon_class` of `get_sidebar`. -/
def icon_class (active_page page_name : String) : String :=
  if page_name = active_page then icon_base
  else icon_base ++ icon_hover_suffix

/-- Concatenation of a list of character lists. -/
def joinL : List (List Char) → List Char
  | [] => []
  | c :: cs => c ++ joinL cs

/-- The opening tag of the sidebar template, the maximal  literal piece of the
f-string up to and including its first closing angle bracket. -/
def aside_open : List Char :=
  ("<aside class=\"w-64 bg-surface-light dark:bg-surface-dark border-r border-border-light dark:border-border-dark flex flex-col h-full flex-shrink-0 z-20\">").data

/-- Literal pieces and interpolated pieces, in order, of the f-string body of
`get_sidebar` between the opening tag and the final closing tag.  Long literal
runs of the template are split into adjacent smaller literals (their
concatenation is exactly the source text) so that every piece stays small
enough for kernel evaluation; the 18 interpolated `link_class`/`icon_class`
expressions appear exactly where the f-string interpolates them. -/
def sidebar_mid (active_page : String) : List (List Char) :=
  [
   ("
    <div class=\"h-16 flex items-center px-6 border-b border-border-light dark:border-border-dark lg:border-none\">
        <div class=\"flex items-center gap-2\">
            <div class=\"w-8 h-8 rounded-lg bg-primary flex items-center justify-center text-white\">
                <span class=\"material-icons-round text-xl\">all_inclusive</span>
            </div>").data,
   ("
            <span class=\"text-lg font-bold text-gray-900 dark:text-white tracking-tight\">Quantum</span>
        </div>
    </div>
    <div class=\"px-5 mt-4 mb-2\">
        <div class=\"relative\">
            <span class=\"absolute inset-y-0 left-0 pl-3 flex items-center pointer-events-none\">
                <span class=\"material-icons-round text-gray-400 text-sm\">search</span>").data,
   ("
            </span>
            <input class=\"w-full bg-gray-50 dark:bg-slate-700/50 border-none rounded-lg py-2 pl-9 pr-3 text-sm text-gray-700 dark:text-gray-200 focus:ring-1 focus:ring-primary placeholder-gray-400 dark:placeholder-slate-500\" placeholder=\"Search data...\" type=\"text\"/>").data,
   ("
            <div class=\"absolute inset-y-0 right-0 pr-2 flex items-center pointer-events-none\">
                <span class=\"text-gray-400 text-xs border border-gray-200 dark:border-gray-600 rounded px-1.5 py-0.5\">⌘K</span>
            </div>
        </div>
    </div>
    <nav class=\"flex-1 overflow-y-auto px-4 py-4 space-y-6\">
        <div>").data,
   ("
            <h3 class=\"px-2 text-xs font-semibold text-text-sub-light dark:text-text-sub-dark uppercase tracking-wider mb-2\">Clinical Workflow</h3>
            <ul class=\"space-y-1\">
                <li>
                    <a class=\"").data,
   (link_class active_page "Dashboard").data,
   ("\" href=\"dashboard.html\">
                        <span class=\"").data,
   (icon_class active_page "Dashboard").data,
   ("\">dashboard</span>
                        <span class=\"font-medium text-sm\">Dashboard</span>
                    </a>
                </li>
                <li>
                    <a class=\"").data,
   (link_class active_page "Participants").data,
   ("\" href=\"participants.html\">
                        <span class=\"").data,
   (icon_class active_page "Participants").data,
   ("\">people</span>
                        <span class=\"font-medium text-sm\">Participants</span>
                    </a>
                </li>
                <li>
                    <a class=\"").data,
   (link_class active_page "Reports & Docs").data,
   ("\" href=\"reports.html\">
                        <span class=\"").data,
   (icon_class active_page "Reports & Docs").data,
   ("\">assignment</span>
                        <span class=\"font-medium text-sm\">Reports & Docs</span>
                    </a>
                </li>
                <li>
                    <a class=\"").data,
   (link_class active_page "AI Assistant").data,
   ("\" href=\"ai.html\">
                        <span class=\"").data,
   (icon_class active_page "AI Assistant").data,
   ("\">psychology</span>
                        <span class=\"font-medium text-sm\">AI Assistant</span>
                        <span class=\"ml-auto bg-indigo-100 dark:bg-indigo-900/40 text-primary text-[10px] font-bold px-1.5 py-0.5 rounded\">NEW</span>
                    </a>
                </li>
                <li>
                    <a class=\"").data,
   (link_class active_page "Toolkit").data,
   ("\" href=\"toolkit.html\">
                        <span class=\"").data,
   (icon_class active_page "Toolkit").data,
   ("\">construction</span>
                        <span class=\"font-medium text-sm\">Toolkit</span>
                    </a>
                </li>
            </ul>
        </div>
        <div>
            <h3 class=\"px-2 text-xs font-semibold text-text-sub-light dark:text-text-sub-dark uppercase tracking-wider mb-2\">Compliance</h3>
            <ul class=\"space-y-1\">").data,
   ("
                <li>
                    <a class=\"").data,
   (link_class active_page "Audits").data,
   ("\" href=\"#\">
                        <span class=\"").data,
   (icon_class active_page "Audits").data,
   ("\">verified_user</span>
                        <span class=\"font-medium text-sm\">Audits</span>
                    </a>
                </li>
                <li>
                    <a class=\"").data,
   (link_class active_page "NDIS Plans").data,
   ("\" href=\"ndisplans.html\">
                        <span class=\"").data,
   (icon_class active_page "NDIS Plans").data,
   ("\">history_edu</span>
                        <span class=\"font-medium text-sm\">NDIS Plans</span>
                    </a>
                </li>
            </ul>
        </div>
        <div>
            <h3 class=\"px-2 text-xs font-semibold text-text-sub-light dark:text-text-sub-dark uppercase tracking-wider mb-2\">Settings</h3>
            <ul class=\"space-y-1\">").data,
   ("
                <li>
                    <a class=\"").data,
   (link_class active_page "General").data,
   ("\" href=\"general.html\">
                        <span class=\"").data,
   (icon_class active_page "General").data,
   ("\">settings</span>
                        <span class=\"font-medium text-sm\">General</span>
                    </a>
                </li>
                <li>
                    <a class=\"").data,
   (link_class active_page "Help Center").data,
   ("\" href=\"#\">
                        <span class=\"").data,
   (icon_class active_page "Help Center").data,
   ("\">help_outline</span>
                        <span class=\"font-medium text-sm\">Help Center</span>
                    </a>
                </li>
            </ul>
        </div>
    </nav>
    <div class=\"p-4 border-t border-border-light dark:border-border-dark\">").data,
   ("
        <a href=\"profile.html\" class=\"flex items-center gap-3 w-full hover:bg-gray-50 dark:hover:bg-slate-700/50 p-2 rounded-lg transition-colors\">").data,
   ("
            <img alt=\"User avatar\" class=\"w-8 h-8 rounded-full border border-gray-200 dark:border-gray-600\" src=\"https://lh3.googleusercontent.com/aida-public/AB6AXuC3PRJomuYWo10PIj-wZ4oATztLJHU09M0yzJNrEj9PExcDf5irhFSknCmiKVhIpHuE4326mJFaMwoiucPKgNbVWJYxfzdkmyA-t4lIl6dIWQMk6zReuWABMGjJb68EgIVNIwi_wIUQVkBLhK3I9Gt-mQSt3N1NR1couViFXGZXp6c9r1JSV1qz03QqNMe4LrKh9goVNRi7QBvro3HK6SDV").data,
   ("nBkcQwmT3-bgiNqy6TS7PRK8rgX7QlIiZMYr0io3FhCbpUqj8sqRCIs\"/>
            <div class=\"text-left\">
                <p class=\"text-sm font-medium text-gray-900 dark:text-white\">Sarah Chen</p>
                <p class=\"text-xs text-text-sub-light dark:text-text-sub-dark\">Senior OT</p>
            </div>
        </a>
    </div>
").data
  ]

/-- All pieces of the f-string of `get_sidebar`, in order: the opening tag,
the middle pieces, and the final literal `</aside>`. -/
def sidebar_chunks (active_page : String) : List (List Char) :=
  aside_open :: (sidebar_mid active_page ++ [("</aside>").data])

/-- Function `get_sidebar` from the source: joining the template pieces in
order yields exactly the f-string with the class interpolations filled in. -/
def get_sidebar (active_page : String) : String :=
  ⟨joinL (sidebar_chunks active_page)⟩

/-- First index at which `pat` occurs as a contiguous sublist of `s`
(leftmost occurrence), the scan underlying `re.search`, lazy quantifiers and
Python substring tests in this embedding. -/
def findSub (pat : List Char) : List Char → Option Nat
  | [] => if pat.isEmpty then some 0 else none
  | c :: rest =>
    if pat.isPrefixOf (c :: rest) then some 0
    else (findSub pat rest).map (· + 1)

/-- Predicate: `pat` occurs in `s` starting at index `i`. -/
def occursAt (pat s : List Char) (i : Nat) : Prop := pat <+: s.drop i

instance (pat s : List Char) (i : Nat) : Decidable (occursAt pat s i) :=
  inferInstanceAs (Decidable (pat <+: s.drop i))

/-- Python's substring test `pat in s`. -/
def containsSub (pat s : String) : Bool := (findSub pat.data s.data).isSome

/-- Python's `str.replace`: replace every non-overlapping occurrence of `pat`,
scanning left to right. -/
def replaceAllL (pat rep : List Char) : List Char → List Char
  | [] => []
  | c :: rest =>
    if h : pat ≠ [] ∧ pat.isPrefixOf (c :: rest) then
      rep ++ replaceAllL pat rep ((c :: rest).drop pat.length)
    else
      c :: replaceAllL pat rep rest
termination_by s => s.length
decreasing_by
  · simp only [List.length_drop, List.length_cons]
    have hp : 1 ≤ pat.length := by
      cases hpat : pat with
      | nil => exact absurd hpat h.1
      | cons a l => simp
    omega
  · simp

/-- Python's `content.replace(pat, rep)` at the `String` level. -/
def strReplace (s pat rep : String) : String :=
  ⟨replaceAllL pat.data rep.data s.data⟩

/-- The span matched by the lazy, DOTALL regex `<aside.*?>.*?</aside>`:
start of the leftmost occurrence of `<aside`, then the first closing angle
bracket after it, then the end of the first `</aside>` after that.  Returns
`(start, stop)` with `stop` exclusive, or `none` when there is no match. -/
def findAsideSpan (s : List Char) : Option (Nat × Nat) :=
  match findSub ("<aside").data s with
  | none => none
  | some p =>
    match findSub (">").data (s.drop (p + 6)) with
    | none => none
    | some j =>
      match findSub ("</aside>").data (s.drop (p + 6 + j + 1)) with
      | none => none
      | some k => some (p, p + 6 + j + 1 + k + 8)

/-- Step 1 of the loop body, `pattern.sub(new_sidebar, content, count=1)`
guarded by `pattern.search(content)`: replace the first regex match of the
aside container by `frag`; identity when there is no match. -/
def sub_aside (frag content : String) : String :=
  match findAsideSpan content.data with
  | none => content
  | some (p, e) => ⟨content.data.take p ++ frag.data ++ content.data.drop e⟩

/-- The `icon_link` stylesheet tag from the source. -/
def icon_link : String :=
  "<link href=\"https://fonts.googleapis.com/icon?family=Material+Icons+Round\" rel=\"stylesheet\"/>"

/-- The substring whose presence suppresses the stylesheet insertion. -/
def iconFam : String := "family=Material+Icons+Round"

/-- Step 2 of the loop body: when the icon-family substring is absent,
insert `icon_link` before `</head>` via `str.replace`. -/
def ensure_icon (content : String) : String :=
  if containsSub iconFam content then content
  else strReplace content "</head>" (icon_link ++ "\n</head>")

/-- The two in-memory transformations the loop applies to a file's text. -/
def patch_content (page_name content : String) : String :=
  ensure_icon (sub_aside (get_sidebar page_name) content)

/-- Result of `os.path.join(design_dir, filename)` for the relative
filenames listed in `files`. -/
def filepathOf (filename : String) : String := design_dir ++ "/" ++ filename

/-- Observable effects of one loop iteration: the paths read, the
`(path, text)` pairs written, and the lines printed. -/
structure FileResult where
  reads : List String
  writes : List (String × String)
  logs : List String

/-- One iteration of the module-level loop over `files.items()`, reading the
file contents from the oracle `fs`. -/
def process_file (fs : String → Option String) (filename page_name : String) :
    FileResult :=
  match fs (filepathOf filename) with
  | none => ⟨[], [], ["Skipping " ++ filename ++ ", does not exist"]⟩
  | some content =>
    let content1 := sub_aside (get_sidebar page_name) content
    let log1 :=
      if (findAsideSpan content.data).isSome then
        ["Updated sidebar in " ++ filename]
      else ["Warning: No aside tag found in " ++ filename]
    let log2 :=
      if containsSub iconFam content1 then ([] : List String)
      else ["Added Material Icons link to " ++ filename]
    ⟨[filepathOf filename], [(filepathOf filename, ensure_icon content1)],
     log1 ++ log2⟩

/-- The labels of the statically rendered nav links of the sidebar template,
in order: the second arguments of the `link_class` and `icon_class`
interpolations in `sidebar_mid`. -/
def nav_labels : List String :=
  ["Dashboard", "Participants", "Reports & Docs", "AI Assistant", "Toolkit",
   "Audits", "NDIS Plans", "General", "Help Center"]

/-- A nav link renders with the active style pair. -/
def is_active_render (active_page label : String) : Bool :=
  (link_class active_page label == link_base ++ link_active_suffix) &&
  (icon_class active_page label == icon_base)

/-- A nav link renders with the hover style pair. -/
def is_hover_render (active_page label : String) : Bool :=
  (link_class active_page label == link_base ++ link_hover_suffix) &&
  (icon_class active_page label == icon_base ++ icon_hover_suffix)

/-- Number of nav links rendered with the active style pair. -/
def activeCount (active_page : String) : Nat :=
  (nav_labels.filter (fun l => is_active_render active_page l)).length

/-- Number of nav links rendered with the hover style pair. -/
def hoverCount (active_page : String) : Nat :=
  (nav_labels.filter (fun l => is_hover_render active_page l)).length

/-! ### Generic facts about occurrences, scanning and replacement -/

theorem prefix_append_of_prefix {p s : List Char} (t : List Char)
    (h : p <+: s) : p <+: s ++ t :=
  h.trans (List.prefix_append s t)

theorem prefix_append_iff_of_le {p s : List Char} (t : List Char)
    (h : p.length ≤ s.length) : p <+: s ++ t ↔ p <+: s := by
  constructor
  · intro hp
    have he := List.prefix_iff_eq_take.mp hp
    rw [List.take_append_of_le_length h] at he
    exact he ▸ List.take_prefix _ _
  · exact prefix_append_of_prefix t

theorem prefix_take_of_le {p s : List Char} {n : Nat}
    (h : p <+: s) (hn : p.length ≤ n) : p <+: s.take n := by
  have he := List.prefix_iff_eq_take.mp h
  have : p = (s.take n).take p.length := by
    rw [List.take_take, Nat.min_eq_left hn]; exact he
  exact this ▸ List.take_prefix _ _

theorem prefix_append_left_mono {t w : List Char} (d : List Char)
    (h : t <+: w) : d ++ t <+: d ++ w := by
  rcases h with ⟨r, hr⟩
  exact ⟨r, by rw [List.append_assoc, hr]⟩

theorem occursAt_zero {pat s : List Char} : occursAt pat s 0 ↔ pat <+: s := by
  simp [occursAt]

theorem occursAt_cons_succ {pat s : List Char} {c : Char} {i : Nat} :
    occursAt pat (c :: s) (i + 1) ↔ occursAt pat s i := by
  simp [occursAt]

theorem occursAt_nil {pat : List Char} (hne : pat ≠ []) (i : Nat) :
    ¬ occursAt pat [] i := by
  intro h
  exact hne (List.prefix_nil.mp (by simpa [occursAt] using h))

theorem occursAt_append_add {pat x s : List Char} {i : Nat} :
    occursAt pat (x ++ s) (x.length + i) ↔ occursAt pat s i := by
  unfold occursAt
  rw [List.drop_append]

theorem findSub_eq_none_iff {pat : List Char} : ∀ {s : List Char},
    findSub pat s = none ↔ ∀ i, ¬ occursAt pat s i := by
  intro s
  induction s with
  | nil =>
    by_cases hp : pat = []
    · subst hp
      simp [findSub, occursAt]
    · simp [findSub, List.isEmpty_iff, hp]
      intro i
      exact occursAt_nil hp i
  | cons c rest ih =>
    cases hpre : pat.isPrefixOf (c :: rest) with
    | true =>
      simp only [findSub, hpre, if_true]
      constructor
      · intro h; exact absurd h (by simp)
      · intro h
        exact absurd (occursAt_zero.mpr (List.isPrefixOf_iff_prefix.mp hpre)) (h 0)
    | false =>
      have hnp : ¬ pat <+: (c :: rest) := by
        rw [← List.isPrefixOf_iff_prefix, hpre]
        simp
      simp only [findSub, hpre, Bool.false_eq_true, if_false]
      rw [Option.map_eq_none', ih]
      constructor
      · intro h i
        cases i with
        | zero =>
          rw [occursAt_zero]
          exact hnp
        | succ j =>
          rw [occursAt_cons_succ]
          exact h j
      · intro h i
        have := h (i + 1)
        rwa [occursAt_cons_succ] at this

theorem findSub_eq_some_iff {pat : List Char} : ∀ {s : List Char} {n : Nat},
    findSub pat s = some n ↔
      occursAt pat s n ∧ ∀ j, j < n → ¬ occursAt pat s j := by
  intro s
  induction s with
  | nil =>
    intro n
    by_cases hp : pat = []
    · subst hp
      simp only [findSub, List.isEmpty_nil, if_true]
      constructor
      · rintro h
        cases h
        exact ⟨occursAt_zero.mpr (List.nil_prefix), by intro j hj; omega⟩
      · rintro ⟨h1, h2⟩
        cases n with
        | zero => rfl
        | succ m =>
          exact absurd (h2 0 (Nat.succ_pos m)) (by simp [occursAt])
    · simp only [findSub, List.isEmpty_iff, hp, if_false]
      constructor
      · intro h; cases h
      · rintro ⟨h1, _⟩
        exact absurd h1 (occursAt_nil hp n)
  | cons c rest ih =>
    intro n
    cases hpre : pat.isPrefixOf (c :: rest) with
    | true =>
      simp only [findSub, hpre, if_true]
      constructor
      · rintro h
        cases h
        exact ⟨occursAt_zero.mpr (List.isPrefixOf_iff_prefix.mp hpre),
               by intro j hj; omega⟩
      · rintro ⟨h1, h2⟩
        cases n with
        | zero => rfl
        | succ m =>
          exact absurd (h2 0 (Nat.succ_pos m))
            (by simp [occursAt_zero, List.isPrefixOf_iff_prefix.mp hpre])
    | false =>
      have hnp : ¬ pat <+: (c :: rest) := by
        rw [← List.isPrefixOf_iff_prefix, hpre]
        simp
      simp only [findSub, hpre, Bool.false_eq_true, if_false]
      constructor
      · intro h
        rcases Option.map_eq_some'.mp h with ⟨m, hm, hn⟩
        subst hn
        rcases ih.mp hm with ⟨h1, h2⟩
        refine ⟨occursAt_cons_succ.mpr h1, ?_⟩
        intro j hj
        cases j with
        | zero =>
          rw [occursAt_zero]
          exact hnp
        | succ k =>
          rw [occursAt_cons_succ]
          exact h2 k (by omega)
      · rintro ⟨h1, h2⟩
        cases n with
        | zero =>
          exact absurd (occursAt_zero.mp h1) hnp
        | succ m =>
          have hm : findSub pat rest = some m := by
            refine ih.mpr ⟨occursAt_cons_succ.mp h1, ?_⟩
            intro j hj
            have := h2 (j + 1) (by omega)
            rwa [occursAt_cons_succ] at this
          simp [hm]

theorem findSub_append_of_le {pat xs : List Char} (ys : List Char) {j : Nat}
    (h : findSub pat xs = some j) (hle : j + pat.length ≤ xs.length) :
    findSub pat (xs ++ ys) = some j := by
  rcases findSub_eq_some_iff.mp h with ⟨h1, h2⟩
  refine findSub_eq_some_iff.mpr ⟨?_, ?_⟩
  · unfold occursAt at h1 ⊢
    rw [List.drop_append_of_le_length (by omega)]
    exact prefix_append_of_prefix ys h1
  · intro i hi hocc
    unfold occursAt at hocc
    rw [List.drop_append_of_le_length (by omega)] at hocc
    have hlen : pat.length ≤ (xs.drop i).length := by
      rw [List.length_drop]; omega
    exact h2 i hi ((prefix_append_iff_of_le ys hlen).mp hocc)

/-- Bool scanner: `pat` occurs nowhere in `s` (for nonempty `pat`). -/
def noOccB (pat : List Char) : List Char → Bool
  | [] => true
  | c :: rest => !(pat.isPrefixOf (c :: rest)) && noOccB pat rest

theorem noOccB_sound {pat : List Char} (hne : pat ≠ []) :
    ∀ {s : List Char}, noOccB pat s = true → ∀ i, ¬ occursAt pat s i := by
  intro s
  induction s with
  | nil => exact fun _ i => occursAt_nil hne i
  | cons c rest ih =>
    intro h i
    simp only [noOccB, Bool.and_eq_true, Bool.not_eq_true'] at h
    obtain ⟨hp, hr⟩ := h
    cases i with
    | zero =>
      rw [occursAt_zero]
      intro hc
      rw [← List.isPrefixOf_iff_prefix, hp] at hc
      cases hc
    | succ j =>
      rw [occursAt_cons_succ]
      exact ih hr j

/-- Segments interleaved with a separator: `sepJoin sep [s0, s1, ..., sn]`
is `s0 ++ sep ++ s1 ++ sep ++ ... ++ sep ++ sn`.  A document containing
exactly `n` occurrences of `sep` decomposes this way with `n + 1` segments. -/
def sepJoin (sep : List Char) : List (List Char) → List Char
  | [] => []
  | [s] => s
  | s :: t :: rest => s ++ (sep ++ sepJoin sep (t :: rest))

/-- Bool scanner: no occurrence of `pat` starts at a position of `s` inside
`s ++ suffix`. -/
def noPreB (pat suffix : List Char) : List Char → Bool
  | [] => true
  | c :: rest => !(pat.isPrefixOf ((c :: rest) ++ suffix)) && noPreB pat suffix rest

theorem noPreB_sound {pat suffix : List Char} : ∀ {s : List Char},
    noPreB pat suffix s = true →
    ∀ i, i < s.length → ¬ occursAt pat (s ++ suffix) i := by
  intro s
  induction s with
  | nil =>
    intro _ i hi
    simp at hi
  | cons c rest ih =>
    intro h i hi
    simp only [noPreB, Bool.and_eq_true, Bool.not_eq_true'] at h
    obtain ⟨hp, hr⟩ := h
    cases i with
    | zero =>
      rw [occursAt_zero]
      intro hc
      rw [← List.isPrefixOf_iff_prefix, hp] at hc
      cases hc
    | succ j =>
      intro hocc
      unfold occursAt at hocc
      rw [List.cons_append, List.drop_succ_cons] at hocc
      exact ih hr j (by simpa using hi) hocc

/-- Bool scanner: in the decomposition `sepJoin pat segs`, no occurrence of
`pat` starts inside a segment, so the separators are the only occurrences. -/
def sepCleanB (pat : List Char) : List (List Char) → Bool
  | [] => true
  | [s] => noOccB pat s
  | s :: t :: rest =>
    noPreB pat (pat ++ sepJoin pat (t :: rest)) s && sepCleanB pat (t :: rest)

theorem joinL_cons (c : List Char) (cs : List (List Char)) :
    joinL (c :: cs) = c ++ joinL cs := rfl

theorem joinL_append : ∀ (xs ys : List (List Char)),
    joinL (xs ++ ys) = joinL xs ++ joinL ys := by
  intro xs ys
  induction xs with
  | nil => simp [joinL]
  | cons c cs ih => simp [joinL, ih]

theorem take_join_cons_of_take {e : List Char} {n : Nat} {w : List Char}
    (cs : List (List Char)) (s2 : List Char)
    (hw : e.take n = w) (hlen : n ≤ e.length) :
    (joinL (e :: cs) ++ s2).take n = w := by
  rw [joinL_cons, List.append_assoc, List.take_append_of_le_length hlen, hw]

theorem prefix_append_window {pat d R : List Char} (hd : d ≠ [])
    (h : pat <+: d ++ R) : pat <+: d ++ R.take (pat.length - 1) := by
  by_cases hle : pat.length ≤ d.length
  · exact prefix_append_of_prefix _ ((prefix_append_iff_of_le R hle).mp h)
  · have he := List.prefix_iff_eq_take.mp h
    rw [List.take_append_eq_append_take, List.take_of_length_le (by omega)] at he
    have hd1 : 1 ≤ d.length := by
      cases d with
      | nil => exact absurd rfl hd
      | cons a l => simp
    have ht : R.take (pat.length - d.length) <+: R.take (pat.length - 1) :=
      prefix_take_of_le (List.take_prefix _ _)
        (by rw [List.length_take]; omega)
    conv_lhs => rw [he]
    exact prefix_append_left_mono d ht

theorem noPre_cons {pat : List Char} (hne : pat ≠ []) {c : List Char}
    {cs : List (List Char)} {s2 : List Char} {w : List Char}
    (hw : (joinL cs ++ s2).take (pat.length - 1) = w)
    (h1 : noOccB pat (c ++ w) = true)
    (h2 : ∀ i, i < (joinL cs).length → ¬ occursAt pat (joinL cs ++ s2) i) :
    ∀ i, i < (joinL (c :: cs)).length → ¬ occursAt pat (joinL (c :: cs) ++ s2) i := by
  intro i hi hocc
  rw [joinL_cons, List.append_assoc] at hocc
  rw [joinL_cons, List.length_append] at hi
  rcases Nat.lt_or_ge i c.length with hlt | hge
  · unfold occursAt at hocc
    rw [List.drop_append_of_le_length (Nat.le_of_lt hlt)] at hocc
    have hd : c.drop i ≠ [] := by
      intro hnil
      have := List.drop_eq_nil_iff.mp hnil
      omega
    have hwin := prefix_append_window hd hocc
    rw [hw] at hwin
    have : occursAt pat (c ++ w) i := by
      unfold occursAt
      rwa [List.drop_append_of_le_length (Nat.le_of_lt hlt)]
    exact noOccB_sound hne h1 i this
  · unfold occursAt at hocc
    rw [List.drop_append_eq_append_drop,
        List.drop_eq_nil_iff.mpr (by omega), List.nil_append] at hocc
    exact h2 (i - c.length) (by omega) hocc

theorem noPre_nil {pat : List Char} (s2 : List Char) :
    ∀ i, i < (joinL []).length → ¬ occursAt pat (joinL [] ++ s2) i := by
  intro i hi
  simp [joinL] at hi

theorem exOcc_append_left {pat s : List Char} (y : List Char)
    (h : ∃ i, occursAt pat s i) : ∃ i, occursAt pat (s ++ y) i := by
  rcases h with ⟨i, hi⟩
  rcases Nat.lt_or_ge i s.length with hlt | hge
  · refine ⟨i, ?_⟩
    unfold occursAt at hi ⊢
    rw [List.drop_append_of_le_length (Nat.le_of_lt hlt)]
    exact prefix_append_of_prefix y hi
  · have : pat = [] := by
      have : s.drop i = [] := List.drop_eq_nil_iff.mpr hge
      unfold occursAt at hi
      rw [this] at hi
      exact List.prefix_nil.mp hi
    exact ⟨0, by simp [occursAt, this]⟩

theorem exOcc_append_right {pat s : List Char} (x : List Char)
    (h : ∃ i, occursAt pat s i) : ∃ i, occursAt pat (x ++ s) i := by
  rcases h with ⟨i, hi⟩
  exact ⟨x.length + i, occursAt_append_add.mpr hi⟩

theorem exOcc_joinL_head {pat : List Char} (c : List Char)
    (cs : List (List Char)) (h : ∃ i, occursAt pat c i) :
    ∃ i, occursAt pat (joinL (c :: cs)) i := by
  rw [joinL_cons]
  exact exOcc_append_left _ h

theorem exOcc_joinL_tail {pat : List Char} (c : List Char)
    (cs : List (List Char)) (h : ∃ i, occursAt pat (joinL cs) i) :
    ∃ i, occursAt pat (joinL (c :: cs)) i := by
  rw [joinL_cons]
  exact exOcc_append_right _ h

theorem containsSub_eq_true_of_occurs {pat s : String}
    (h : ∃ i, occursAt pat.data s.data i) : containsSub pat s = true := by
  unfold containsSub
  rcases h with ⟨i, hi⟩
  cases hf : findSub pat.data s.data with
  | none => exact absurd hi (findSub_eq_none_iff.mp hf i)
  | some v => rfl

theorem containsSub_eq_false_iff {pat s : String} :
    containsSub pat s = false ↔ ∀ i, ¬ occursAt pat.data s.data i := by
  unfold containsSub
  rw [← findSub_eq_none_iff]
  cases hf : findSub pat.data s.data <;> simp [hf]

/-! ### The span matched on a well-formed single container -/

theorem findAsideSpan_decomp (pre A B post : List Char)
    (hA : ∀ ch ∈ A, ch ≠ '>')
    (hpre : ∀ i, i < pre.length →
      ¬ occursAt ("<aside").data
        (pre ++ ("<aside").data ++ A ++ (">").data ++ B ++ ("</aside>").data ++ post) i)
    (hB : ∀ i, i < B.length →
      ¬ occursAt ("</aside>").data (B ++ ("</aside>").data) i) :
    findAsideSpan
        (pre ++ ("<aside").data ++ A ++ (">").data ++ B ++ ("</aside>").data ++ post)
      = some (pre.length, pre.length + 6 + A.length + 1 + B.length + 8) := by
  have hS : pre ++ ("<aside").data ++ A ++ (">").data ++ B ++ ("</aside>").data ++ post
      = pre ++ (("<aside").data ++ (A ++ ((">").data ++ (B ++ (("</aside>").data ++ post))))) := by
    simp [List.append_assoc]
  have h1 : findSub ("<aside").data
      (pre ++ ("<aside").data ++ A ++ (">").data ++ B ++ ("</aside>").data ++ post)
      = some pre.length := by
    refine findSub_eq_some_iff.mpr ⟨?_, fun j hj => hpre j hj⟩
    unfold occursAt
    rw [hS, List.drop_left]
    exact List.prefix_append _ _
  have hd1 : (pre ++ ("<aside").data ++ A ++ (">").data ++ B ++ ("</aside>").data ++ post).drop
      (pre.length + 6) = A ++ ((">").data ++ (B ++ (("</aside>").data ++ post))) := by
    have : pre ++ ("<aside").data ++ A ++ (">").data ++ B ++ ("</aside>").data ++ post
        = (pre ++ ("<aside").data) ++ (A ++ ((">").data ++ (B ++ (("</aside>").data ++ post)))) := by
      simp [List.append_assoc]
    rw [this, List.drop_left' (by simp)]
  have h2 : findSub (">").data (A ++ ((">").data ++ (B ++ (("</aside>").data ++ post))))
      = some A.length := by
    refine findSub_eq_some_iff.mpr ⟨?_, ?_⟩
    · unfold occursAt
      rw [List.drop_left]
      exact List.prefix_append _ _
    · intro j hj hocc
      unfold occursAt at hocc
      rw [List.drop_append_of_le_length (Nat.le_of_lt hj)] at hocc
      cases hdrop : A.drop j with
      | nil =>
        have := List.drop_eq_nil_iff.mp hdrop
        omega
      | cons a t =>
        rw [hdrop, List.cons_append] at hocc
        have ha : a = '>' := (List.cons_prefix_cons.mp hocc).1.symm
        have hmem : a ∈ A := by
          have : a ∈ A.drop j := by rw [hdrop]; exact List.mem_cons_self a t
          exact List.drop_subset j A this
        exact hA a hmem ha
  have hd2 : (pre ++ ("<aside").data ++ A ++ (">").data ++ B ++ ("</aside>").data ++ post).drop
      (pre.length + 6 + A.length + 1) = B ++ (("</aside>").data ++ post) := by
    have : pre ++ ("<aside").data ++ A ++ (">").data ++ B ++ ("</aside>").data ++ post
        = (pre ++ ("<aside").data ++ A ++ (">").data) ++ (B ++ (("</aside>").data ++ post)) := by
      simp [List.append_assoc]
    rw [this, List.drop_left' (by simp [List.length_append] <;> omega)]
  have h3 : findSub ("</aside>").data (B ++ (("</aside>").data ++ post)) = some B.length := by
    refine findSub_eq_some_iff.mpr ⟨?_, ?_⟩
    · unfold occursAt
      rw [List.drop_left]
      exact List.prefix_append _ _
    · intro i hi hocc
      unfold occursAt at hocc
      rw [List.drop_append_of_le_length (Nat.le_of_lt hi), ← List.append_assoc] at hocc
      have hlen : ("</aside>").data.length ≤ (B.drop i ++ ("</aside>").data).length := by
        simp
      have hin := (prefix_append_iff_of_le post hlen).mp hocc
      refine hB i hi ?_
      unfold occursAt
      rwa [List.drop_append_of_le_length (Nat.le_of_lt hi)]
  unfold findAsideSpan
  simp only [h1, hd1, h2, hd2, h3]

theorem sub_aside_decomp (frag : String) (pre A B post : List Char)
    (hA : ∀ ch ∈ A, ch ≠ '>')
    (hpre : ∀ i, i < pre.length →
      ¬ occursAt ("<aside").data
        (pre ++ ("<aside").data ++ A ++ (">").data ++ B ++ ("</aside>").data ++ post) i)
    (hB : ∀ i, i < B.length →
      ¬ occursAt ("</aside>").data (B ++ ("</aside>").data) i) :
    sub_aside frag
        ⟨pre ++ ("<aside").data ++ A ++ (">").data ++ B ++ ("</aside>").data ++ post⟩
      = ⟨pre ++ frag.data ++ post⟩ := by
  unfold sub_aside
  have hspan := findAsideSpan_decomp pre A B post hA hpre hB
  simp only [hspan]
  have htake : (pre ++ ("<aside").data ++ A ++ (">").data ++ B ++ ("</aside>").data ++ post).take
      pre.length = pre := by
    have : pre ++ ("<aside").data ++ A ++ (">").data ++ B ++ ("</aside>").data ++ post
        = pre ++ (("<aside").data ++ (A ++ ((">").data ++ (B ++ (("</aside>").data ++ post))))) := by
      simp [List.append_assoc]
    rw [this, List.take_left]
  have hdrop : (pre ++ ("<aside").data ++ A ++ (">").data ++ B ++ ("</aside>").data ++ post).drop
      (pre.length + 6 + A.length + 1 + B.length + 8) = post := by
    have : pre ++ ("<aside").data ++ A ++ (">").data ++ B ++ ("</aside>").data ++ post
        = (pre ++ ("<aside").data ++ A ++ (">").data ++ B ++ ("</aside>").data) ++ post := by
      simp [List.append_assoc]
    rw [this, List.drop_left' (by simp [List.length_append] <;> omega)]
  rw [htake, hdrop]


/-! ### Structure of the generated fragment -/

theorem link_class_eq (a l : String) :
    link_class a l = link_base ++ link_active_suffix ∨
    link_class a l = link_base ++ link_hover_suffix := by
  unfold link_class
  split
  · exact Or.inl rfl
  · exact Or.inr rfl

theorem icon_class_eq (a l : String) :
    icon_class a l = icon_base ∨
    icon_class a l = icon_base ++ icon_hover_suffix := by
  unfold icon_class
  split
  · exact Or.inl rfl
  · exact Or.inr rfl

theorem link_class_take7 (a l : String) :
    (link_class a l).data.take 7 = ("flex it").data := by
  rcases link_class_eq a l with h | h <;> rw [h] <;> decide

theorem link_class_len7 (a l : String) : 7 ≤ (link_class a l).data.length := by
  rcases link_class_eq a l with h | h <;> rw [h] <;> decide

theorem icon_class_take7 (a l : String) :
    (icon_class a l).data.take 7 = ("materia").data := by
  rcases icon_class_eq a l with h | h <;> rw [h] <;> decide

theorem icon_class_len7 (a l : String) : 7 ≤ (icon_class a l).data.length := by
  rcases icon_class_eq a l with h | h <;> rw [h] <;> decide

theorem tail_window :
    (joinL ([] : List (List Char)) ++ ("</aside>").data).take
      (("</aside>").data.length - 1) = ("</aside").data := by decide

/-- The opening-tag piece decomposes as `<aside`, the attribute text, `>`. -/
theorem aside_open_eq :
    aside_open = ("<aside").data ++ (" class=\"w-64 bg-surface-light dark:bg-surface-dark border-r border-border-light dark:border-border-dark flex flex-col h-full flex-shrink-0 z-20\"").data ++ (">").data := by decide

/-- No occurrence of the closing tag starts anywhere inside the middle pieces
of the fragment, whichever page is active. -/
theorem sidebar_mid_noPre (a : String) :
    ∀ i, i < (joinL (sidebar_mid a)).length →
      ¬ occursAt ("</aside>").data
        (joinL (sidebar_mid a) ++ ("</aside>").data) i := by
  simp only [sidebar_mid]
  exact
    noPre_cons (by decide) (take_join_cons_of_take _ _ rfl (by decide))
      (by decide)
      (      noPre_cons (by decide) (take_join_cons_of_take _ _ rfl (by decide))
        (by decide)
        (        noPre_cons (by decide) (take_join_cons_of_take _ _ rfl (by decide))
          (by decide)
          (          noPre_cons (by decide) (take_join_cons_of_take _ _ rfl (by decide))
            (by decide)
            (            noPre_cons (by decide) (take_join_cons_of_take _ _ (link_class_take7 a "Dashboard") (link_class_len7 a "Dashboard"))
              (by decide)
              (              noPre_cons (by decide) (take_join_cons_of_take _ _ rfl (by decide))
                (by rcases link_class_eq a "Dashboard" with h | h <;> rw [h] <;> decide)
                (                noPre_cons (by decide) (take_join_cons_of_take _ _ (icon_class_take7 a "Dashboard") (icon_class_len7 a "Dashboard"))
                  (by decide)
                  (                  noPre_cons (by decide) (take_join_cons_of_take _ _ rfl (by decide))
                    (by rcases icon_class_eq a "Dashboard" with h | h <;> rw [h] <;> decide)
                    (                    noPre_cons (by decide) (take_join_cons_of_take _ _ (link_class_take7 a "Participants") (link_class_len7 a "Participants"))
                      (by decide)
                      (                      noPre_cons (by decide) (take_join_cons_of_take _ _ rfl (by decide))
                        (by rcases link_class_eq a "Participants" with h | h <;> rw [h] <;> decide)
                        (                        noPre_cons (by decide) (take_join_cons_of_take _ _ (icon_class_take7 a "Participants") (icon_class_len7 a "Participants"))
                          (by decide)
                          (                          noPre_cons (by decide) (take_join_cons_of_take _ _ rfl (by decide))
                            (by rcases icon_class_eq a "Participants" with h | h <;> rw [h] <;> decide)
                            (                            noPre_cons (by decide) (take_join_cons_of_take _ _ (link_class_take7 a "Reports & Docs") (link_class_len7 a "Reports & Docs"))
                              (by decide)
                              (                              noPre_cons (by decide) (take_join_cons_of_take _ _ rfl (by decide))
                                (by rcases link_class_eq a "Reports & Docs" with h | h <;> rw [h] <;> decide)
                                (                                noPre_cons (by decide) (take_join_cons_of_take _ _ (icon_class_take7 a "Reports & Docs") (icon_class_len7 a "Reports & Docs"))
                                  (by decide)
                                  (                                  noPre_cons (by decide) (take_join_cons_of_take _ _ rfl (by decide))
                                    (by rcases icon_class_eq a "Reports & Docs" with h | h <;> rw [h] <;> decide)
                                    (                                    noPre_cons (by decide) (take_join_cons_of_take _ _ (link_class_take7 a "AI Assistant") (link_class_len7 a "AI Assistant"))
                                      (by decide)
                                      (                                      noPre_cons (by decide) (take_join_cons_of_take _ _ rfl (by decide))
                                        (by rcases link_class_eq a "AI Assistant" with h | h <;> rw [h] <;> decide)
                                        (                                        noPre_cons (by decide) (take_join_cons_of_take _ _ (icon_class_take7 a "AI Assistant") (icon_class_len7 a "AI Assistant"))
                                          (by decide)
                                          (                                          noPre_cons (by decide) (take_join_cons_of_take _ _ rfl (by decide))
                                            (by rcases icon_class_eq a "AI Assistant" with h | h <;> rw [h] <;> decide)
                                            (                                            noPre_cons (by decide) (take_join_cons_of_take _ _ (link_class_take7 a "Toolkit") (link_class_len7 a "Toolkit"))
                                              (by decide)
                                              (                                              noPre_cons (by decide) (take_join_cons_of_take _ _ rfl (by decide))
                                                (by rcases link_class_eq a "Toolkit" with h | h <;> rw [h] <;> decide)
                                                (                                                noPre_cons (by decide) (take_join_cons_of_take _ _ (icon_class_take7 a "Toolkit") (icon_class_len7 a "Toolkit"))
                                                  (by decide)
                                                  (                                                  noPre_cons (by decide) (take_join_cons_of_take _ _ rfl (by decide))
                                                    (by rcases icon_class_eq a "Toolkit" with h | h <;> rw [h] <;> decide)
                                                    (                                                    noPre_cons (by decide) (take_join_cons_of_take _ _ rfl (by decide))
                                                      (by decide)
                                                      (                                                      noPre_cons (by decide) (take_join_cons_of_take _ _ (link_class_take7 a "Audits") (link_class_len7 a "Audits"))
                                                        (by decide)
                                                        (                                                        noPre_cons (by decide) (take_join_cons_of_take _ _ rfl (by decide))
                                                          (by rcases link_class_eq a "Audits" with h | h <;> rw [h] <;> decide)
                                                          (                                                          noPre_cons (by decide) (take_join_cons_of_take _ _ (icon_class_take7 a "Audits") (icon_class_len7 a "Audits"))
                                                            (by decide)
                                                            (                                                            noPre_cons (by decide) (take_join_cons_of_take _ _ rfl (by decide))
                                                              (by rcases icon_class_eq a "Audits" with h | h <;> rw [h] <;> decide)
                                                              (                                                              noPre_cons (by decide) (take_join_cons_of_take _ _ (link_class_take7 a "NDIS Plans") (link_class_len7 a "NDIS Plans"))
                                                                (by decide)
                                                                (                                                                noPre_cons (by decide) (take_join_cons_of_take _ _ rfl (by decide))
                                                                  (by rcases link_class_eq a "NDIS Plans" with h | h <;> rw [h] <;> decide)
                                                                  (                                                                  noPre_cons (by decide) (take_join_cons_of_take _ _ (icon_class_take7 a "NDIS Plans") (icon_class_len7 a "NDIS Plans"))
                                                                    (by decide)
                                                                    (                                                                    noPre_cons (by decide) (take_join_cons_of_take _ _ rfl (by decide))
                                                                      (by rcases icon_class_eq a "NDIS Plans" with h | h <;> rw [h] <;> decide)
                                                                      (                                                                      noPre_cons (by decide) (take_join_cons_of_take _ _ rfl (by decide))
                                                                        (by decide)
                                                                        (                                                                        noPre_cons (by decide) (take_join_cons_of_take _ _ (link_class_take7 a "General") (link_class_len7 a "General"))
                                                                          (by decide)
                                                                          (                                                                          noPre_cons (by decide) (take_join_cons_of_take _ _ rfl (by decide))
                                                                            (by rcases link_class_eq a "General" with h | h <;> rw [h] <;> decide)
                                                                            (                                                                            noPre_cons (by decide) (take_join_cons_of_take _ _ (icon_class_take7 a "General") (icon_class_len7 a "General"))
                                                                              (by decide)
                                                                              (                                                                              noPre_cons (by decide) (take_join_cons_of_take _ _ rfl (by decide))
                                                                                (by rcases icon_class_eq a "General" with h | h <;> rw [h] <;> decide)
                                                                                (                                                                                noPre_cons (by decide) (take_join_cons_of_take _ _ (link_class_take7 a "Help Center") (link_class_len7 a "Help Center"))
                                                                                  (by decide)
                                                                                  (                                                                                  noPre_cons (by decide) (take_join_cons_of_take _ _ rfl (by decide))
                                                                                    (by rcases link_class_eq a "Help Center" with h | h <;> rw [h] <;> decide)
                                                                                    (                                                                                    noPre_cons (by decide) (take_join_cons_of_take _ _ (icon_class_take7 a "Help Center") (icon_class_len7 a "Help Center"))
                                                                                      (by decide)
                                                                                      (                                                                                      noPre_cons (by decide) (take_join_cons_of_take _ _ rfl (by decide))
                                                                                        (by rcases icon_class_eq a "Help Center" with h | h <;> rw [h] <;> decide)
                                                                                        (                                                                                        noPre_cons (by decide) (take_join_cons_of_take _ _ rfl (by decide))
                                                                                          (by decide)
                                                                                          (                                                                                          noPre_cons (by decide) (take_join_cons_of_take _ _ rfl (by decide))
                                                                                            (by decide)
                                                                                            (                                                                                            noPre_cons (by decide) (take_join_cons_of_take _ _ rfl (by decide))
                                                                                              (by decide)
                                                                                              (                                                                                              noPre_cons (by decide) (tail_window)
                                                                                                (by decide)
                                                                                                (                                                                                                noPre_nil _))))))))))))))))))))))))))))))))))))))))))))))

theorem joinL_singleton (c : List Char) : joinL [c] = c := by
  simp [joinL]

theorem get_sidebar_data (a : String) :
    (get_sidebar a).data = aside_open ++ (joinL (sidebar_mid a) ++ ("</aside>").data) := by
  show joinL (sidebar_chunks a) = _
  unfold sidebar_chunks
  rw [joinL_cons, joinL_append, joinL_singleton]

/-- The profile footer name appears in the fragment for every active page. -/
theorem sarah_in_sidebar (a : String) :
    containsSub "Sarah Chen" (get_sidebar a) = true := by
  apply containsSub_eq_true_of_occurs
  show ∃ i, occursAt ("Sarah Chen").data (joinL (sidebar_chunks a)) i
  unfold sidebar_chunks sidebar_mid
  simp only [List.cons_append, List.nil_append]
  exact exOcc_joinL_tail _ _ (exOcc_joinL_tail _ _ (exOcc_joinL_tail _ _ (exOcc_joinL_tail _ _ (exOcc_joinL_tail _ _ (exOcc_joinL_tail _ _ (exOcc_joinL_tail _ _ (exOcc_joinL_tail _ _ (exOcc_joinL_tail _ _ (exOcc_joinL_tail _ _ (exOcc_joinL_tail _ _ (exOcc_joinL_tail _ _ (exOcc_joinL_tail _ _ (exOcc_joinL_tail _ _ (exOcc_joinL_tail _ _ (exOcc_joinL_tail _ _ (exOcc_joinL_tail _ _ (exOcc_joinL_tail _ _ (exOcc_joinL_tail _ _ (exOcc_joinL_tail _ _ (exOcc_joinL_tail _ _ (exOcc_joinL_tail _ _ (exOcc_joinL_tail _ _ (exOcc_joinL_tail _ _ (exOcc_joinL_tail _ _ (exOcc_joinL_tail _ _ (exOcc_joinL_tail _ _ (exOcc_joinL_tail _ _ (exOcc_joinL_tail _ _ (exOcc_joinL_tail _ _ (exOcc_joinL_tail _ _ (exOcc_joinL_tail _ _ (exOcc_joinL_tail _ _ (exOcc_joinL_tail _ _ (exOcc_joinL_tail _ _ (exOcc_joinL_tail _ _ (exOcc_joinL_tail _ _ (exOcc_joinL_tail _ _ (exOcc_joinL_tail _ _ (exOcc_joinL_tail _ _ (exOcc_joinL_tail _ _ (exOcc_joinL_tail _ _ (exOcc_joinL_tail _ _ (exOcc_joinL_tail _ _ (exOcc_joinL_tail _ _ (exOcc_joinL_tail _ _ (exOcc_joinL_head _ _ ⟨172, by decide⟩))))))))))))))))))))))))))))))))))))))))))))))

/-- The profile footer role appears in the fragment for every active page. -/
theorem senior_in_sidebar (a : String) :
    containsSub "Senior OT" (get_sidebar a) = true := by
  apply containsSub_eq_true_of_occurs
  show ∃ i, occursAt ("Senior OT").data (joinL (sidebar_chunks a)) i
  unfold sidebar_chunks sidebar_mid
  simp only [List.cons_append, List.nil_append]
  exact exOcc_joinL_tail _ _ (exOcc_joinL_tail _ _ (exOcc_joinL_tail _ _ (exOcc_joinL_tail _ _ (exOcc_joinL_tail _ _ (exOcc_joinL_tail _ _ (exOcc_joinL_tail _ _ (exOcc_joinL_tail _ _ (exOcc_joinL_tail _ _ (exOcc_joinL_tail _ _ (exOcc_joinL_tail _ _ (exOcc_joinL_tail _ _ (exOcc_joinL_tail _ _ (exOcc_joinL_tail _ _ (exOcc_joinL_tail _ _ (exOcc_joinL_tail _ _ (exOcc_joinL_tail _ _ (exOcc_joinL_tail _ _ (exOcc_joinL_tail _ _ (exOcc_joinL_tail _ _ (exOcc_joinL_tail _ _ (exOcc_joinL_tail _ _ (exOcc_joinL_tail _ _ (exOcc_joinL_tail _ _ (exOcc_joinL_tail _ _ (exOcc_joinL_tail _ _ (exOcc_joinL_tail _ _ (exOcc_joinL_tail _ _ (exOcc_joinL_tail _ _ (exOcc_joinL_tail _ _ (exOcc_joinL_tail _ _ (exOcc_joinL_tail _ _ (exOcc_joinL_tail _ _ (exOcc_joinL_tail _ _ (exOcc_joinL_tail _ _ (exOcc_joinL_tail _ _ (exOcc_joinL_tail _ _ (exOcc_joinL_tail _ _ (exOcc_joinL_tail _ _ (exOcc_joinL_tail _ _ (exOcc_joinL_tail _ _ (exOcc_joinL_tail _ _ (exOcc_joinL_tail _ _ (exOcc_joinL_tail _ _ (exOcc_joinL_tail _ _ (exOcc_joinL_tail _ _ (exOcc_joinL_head _ _ ⟨266, by decide⟩))))))))))))))))))))))))))))))))))))))))))))))

/-! ### Behaviour of the replace-all operation -/

theorem replaceAllL_of_no_occ {pat rep : List Char} : ∀ {s : List Char},
    (∀ i, ¬ occursAt pat s i) → replaceAllL pat rep s = s := by
  intro s
  induction s with
  | nil => intro _; rw [replaceAllL]
  | cons c rest ih =>
    intro h
    have hnot : ¬ (pat ≠ [] ∧ pat.isPrefixOf (c :: rest) = true) := by
      rintro ⟨hne, hpre⟩
      exact h 0 (occursAt_zero.mpr (List.isPrefixOf_iff_prefix.mp hpre))
    rw [replaceAllL, dif_neg hnot]
    have ih2 := ih (fun i => by
      have := h (i + 1)
      rwa [occursAt_cons_succ] at this)
    rw [ih2]

theorem replaceAllL_first {pat rep : List Char} (hne : pat ≠ []) :
    ∀ (x y : List Char),
      (∀ i, i < x.length → ¬ occursAt pat (x ++ (pat ++ y)) i) →
      replaceAllL pat rep (x ++ (pat ++ y)) = x ++ (rep ++ replaceAllL pat rep y) := by
  intro x
  induction x with
  | nil =>
    intro y _
    rw [List.nil_append, List.nil_append]
    cases hp : pat with
    | nil => exact absurd hp hne
    | cons p ps =>
      subst hp
      rw [List.cons_append, replaceAllL,
          dif_pos ⟨hne, List.isPrefixOf_iff_prefix.mpr
            (by rw [← List.cons_append]; exact List.prefix_append _ _)⟩]
      congr 1
      rw [← List.cons_append, List.drop_left]
  | cons c x' ih =>
    intro y h
    rw [List.cons_append, replaceAllL, dif_neg ?hcontra]
    case hcontra =>
      rintro ⟨_, hpre⟩
      have h0 := h 0 (by simp)
      rw [occursAt_zero, List.cons_append] at h0
      exact h0 (List.isPrefixOf_iff_prefix.mp hpre)
    have ih2 := ih y (fun i hi => by
      have := h (i + 1) (by simp; omega)
      rwa [List.cons_append, occursAt_cons_succ] at this)
    rw [ih2, List.cons_append]

/-- Replacing every occurrence of the separator rewrites each of the
`segs.length - 1` separators of the decomposition and nothing else. -/
theorem replaceAllL_sepJoin {pat rep : List Char} (hne : pat ≠ []) :
    ∀ segs : List (List Char), sepCleanB pat segs = true →
      replaceAllL pat rep (sepJoin pat segs) = sepJoin rep segs := by
  intro segs
  induction segs with
  | nil =>
    intro _
    rw [sepJoin, sepJoin, replaceAllL]
  | cons s rest ih =>
    cases rest with
    | nil =>
      intro h
      rw [sepJoin, sepJoin]
      rw [sepCleanB] at h
      exact replaceAllL_of_no_occ (noOccB_sound hne h)
    | cons t rest2 =>
      intro h
      rw [sepCleanB, Bool.and_eq_true] at h
      obtain ⟨h1, h2⟩ := h
      rw [sepJoin, sepJoin]
      rw [replaceAllL_first hne s (sepJoin pat (t :: rest2)) (noPreB_sound h1)]
      rw [ih h2]

/-! ### Counting active and hover nav links -/

theorem beq_false_of_ne {x y : String} (h : x ≠ y) : (x == y) = false :=
  beq_eq_false_iff_ne.mpr h

theorem is_active_render_eq (a l : String) : is_active_render a l = (l == a) := by
  unfold is_active_render link_class icon_class
  by_cases h : l = a
  · subst h
    simp
  · rw [if_neg h, if_neg h, beq_false_of_ne h]
    decide

theorem is_hover_render_eq (a l : String) : is_hover_render a l = !(l == a) := by
  unfold is_hover_render link_class icon_class
  by_cases h : l = a
  · subst h
    simp
    decide
  · rw [if_neg h, if_neg h, beq_false_of_ne h]
    decide

theorem length_filter_not (p : α → Bool) (l : List α) :
    (l.filter (fun x => !(p x))).length = l.length - (l.filter p).length := by
  induction l with
  | nil => rfl
  | cons x xs ih =>
    have hle := List.length_filter_le p xs
    cases h : p x <;>
      simp [List.filter_cons, h, ih] <;> omega

theorem activeCount_eq_count (a : String) : activeCount a = nav_labels.count a := by
  unfold activeCount
  have hfun : (fun l => is_active_render a l) = (fun l => l == a) :=
    funext (fun l => is_active_render_eq a l)
  rw [hfun, List.count, ← List.countP_eq_length_filter]

theorem hoverCount_eq (a : String) : hoverCount a = 9 - nav_labels.count a := by
  unfold hoverCount
  have hfun : (fun l => is_hover_render a l) = (fun l => !(l == a)) :=
    funext (fun l => is_hover_render_eq a l)
  rw [hfun, length_filter_not, List.count, ← List.countP_eq_length_filter]
  rw [show nav_labels.length = 9 from rfl]

/-! ### The claims -/

/-- C1: for each of the 8 configured `(filename, displayName)` pairs, running
the patcher on a document whose body contains a single well-formed outer
aside container (opening tag with no closing angle bracket inside its
attributes, body with no closing tag, no earlier `<aside`) produces a
document in which that container is replaced by exactly the string returned
by `get_sidebar` for that display name; the rest of the patch is the
stylesheet-assurance step applied to the surrounding text, and the fragment
contains the fixed profile footer text "Sarah Chen" / "Senior OT". -/
theorem C1_patch_replaces_container (fn pn : String) (hmem : (fn, pn) ∈ files)
    (pre A B post : List Char)
    (hA : ∀ ch ∈ A, ch ≠ '>')
    (hpre : ∀ i, i < pre.length →
      ¬ occursAt ("<aside").data
        (pre ++ ("<aside").data ++ A ++ (">").data ++ B ++ ("</aside>").data ++ post) i)
    (hB : ∀ i, i < B.length →
      ¬ occursAt ("</aside>").data (B ++ ("</aside>").data) i) :
    sub_aside (get_sidebar pn)
        ⟨pre ++ ("<aside").data ++ A ++ (">").data ++ B ++ ("</aside>").data ++ post⟩
      = ⟨pre ++ (get_sidebar pn).data ++ post⟩
    ∧ patch_content pn
        ⟨pre ++ ("<aside").data ++ A ++ (">").data ++ B ++ ("</aside>").data ++ post⟩
      = ensure_icon ⟨pre ++ (get_sidebar pn).data ++ post⟩
    ∧ containsSub "Sarah Chen" (get_sidebar pn) = true
    ∧ containsSub "Senior OT" (get_sidebar pn) = true := by
  have hs := sub_aside_decomp (get_sidebar pn) pre A B post hA hpre hB
  refine ⟨hs, ?_, sarah_in_sidebar pn, senior_in_sidebar pn⟩
  unfold patch_content
  rw [hs]

/-- Witness for C1 at the spec's example document and the first configured
pair. -/
theorem C1_patch_replaces_container_witness :
    ("dashboard.html", "Dashboard") ∈ files
    ∧ (sub_aside (get_sidebar "Dashboard")
        ⟨("<html><head></head><body>").data ++ ("<aside").data ++ (" class=\"old\"").data
          ++ (">").data ++ ("OLD CONTENT").data ++ ("</aside>").data ++ ("</body></html>").data⟩
      = ⟨("<html><head></head><body>").data ++ (get_sidebar "Dashboard").data
          ++ ("</body></html>").data⟩
    ∧ patch_content "Dashboard"
        ⟨("<html><head></head><body>").data ++ ("<aside").data ++ (" class=\"old\"").data
          ++ (">").data ++ ("OLD CONTENT").data ++ ("</aside>").data ++ ("</body></html>").data⟩
      = ensure_icon ⟨("<html><head></head><body>").data ++ (get_sidebar "Dashboard").data
          ++ ("</body></html>").data⟩
    ∧ containsSub "Sarah Chen" (get_sidebar "Dashboard") = true
    ∧ containsSub "Senior OT" (get_sidebar "Dashboard") = true) :=
  ⟨by decide,
   C1_patch_replaces_container "dashboard.html" "Dashboard" (by decide)
     (("<html><head></head><body>").data) ((" class=\"old\"").data)
     (("OLD CONTENT").data) (("</body></html>").data)
     (by decide) (by decide) (by decide)⟩

/-- C2 counterexample: "Profile" is a configured display name, yet zero nav
links render with the active style pair for it, and the fragment has 9
statically rendered nav links, not 10. -/
theorem C2_profile_counterexample :
    ("profile.html", "Profile") ∈ files
    ∧ activeCount "Profile" = 0
    ∧ activeCount "Profile" ≠ 1
    ∧ nav_labels.length = 9 :=
  ⟨by decide, by decide, by decide, by decide⟩

/-- C2 (amended): for every active-page label among the 9 static nav-link
labels, exactly one link renders with the active style pair and the other 8
with the hover pair; for every other label — including the configured
display name "Profile" — zero links render active and all 9 render hover. -/
theorem C2_active_exactly_one_of_nine (a : String) :
    (a ∈ nav_labels → activeCount a = 1 ∧ hoverCount a = 8)
    ∧ (a ∉ nav_labels → activeCount a = 0 ∧ hoverCount a = 9) := by
  constructor
  · intro h
    have hc : nav_labels.count a = 1 := List.count_eq_one_of_mem (by decide) h
    rw [activeCount_eq_count, hoverCount_eq, hc]
    exact ⟨rfl, rfl⟩
  · intro h
    have hc : nav_labels.count a = 0 := List.count_eq_zero_of_not_mem h
    rw [activeCount_eq_count, hoverCount_eq, hc]
    exact ⟨rfl, rfl⟩

/-- Witness for the amended C2 at a member label and at the configured but
unmatched label "Profile". -/
theorem C2_active_exactly_one_of_nine_witness :
    (activeCount "Dashboard" = 1 ∧ hoverCount "Dashboard" = 8)
    ∧ (activeCount "Profile" = 0 ∧ hoverCount "Profile" = 9) :=
  ⟨(C2_active_exactly_one_of_nine "Dashboard").1 (by decide),
   (C2_active_exactly_one_of_nine "Profile").2 (by decide)⟩

/-- C3: for every nav link, the link style string is the fixed base
concatenated with the active suffix exactly when the label equals the active
page and with the hover suffix otherwise; the icon style string likewise,
its active suffix being empty. -/
theorem C3_style_pair_concat (a l : String) :
    link_class a l
      = link_base ++ (if l = a then link_active_suffix else link_hover_suffix)
    ∧ icon_class a l
      = icon_base ++ (if l = a then "" else icon_hover_suffix) := by
  by_cases h : l = a
  · subst h
    constructor
    · simp [link_class]
    · simp [icon_class, String.append_empty]
  · constructor
    · simp [link_class, h]
    · simp [icon_class, h]

/-- C4: for an existing input document, the loop body writes exactly once,
to the same path, the text obtained by replacing the first regex match of
the aside container (nothing before the match start matches) and then
applying the stylesheet step; when there is no match it warns and leaves the
text unchanged by that transformation, still writing it back. -/
theorem C4_existing_file_write (fs : String → Option String)
    (fn pn content : String)
    (hread : fs (filepathOf fn) = some content) :
    (process_file fs fn pn).writes
        = [(filepathOf fn, ensure_icon (sub_aside (get_sidebar pn) content))]
    ∧ (findAsideSpan content.data = none →
        sub_aside (get_sidebar pn) content = content
        ∧ ("Warning: No aside tag found in " ++ fn) ∈ (process_file fs fn pn).logs)
    ∧ (∀ p e, findAsideSpan content.data = some (p, e) →
        sub_aside (get_sidebar pn) content
          = ⟨content.data.take p ++ (get_sidebar pn).data ++ content.data.drop e⟩
        ∧ (∀ i, i < p → ¬ occursAt ("<aside").data content.data i)
        ∧ ("Updated sidebar in " ++ fn) ∈ (process_file fs fn pn).logs) := by
  refine ⟨?_, ?_, ?_⟩
  · simp [process_file, hread]
  · intro hnone
    constructor
    · simp [sub_aside, hnone]
    · simp [process_file, hread, hnone]
  · intro p e hsome
    refine ⟨?_, ?_, ?_⟩
    · simp [sub_aside, hsome]
    · unfold findAsideSpan at hsome
      cases hf : findSub ("<aside").data content.data with
      | none => simp [hf] at hsome
      | some q =>
        simp only [hf] at hsome
        cases hg : findSub (">").data (content.data.drop (q + 6)) with
        | none => simp [hg] at hsome
        | some j =>
          simp only [hg] at hsome
          cases hk : findSub ("</aside>").data (content.data.drop (q + 6 + j + 1)) with
          | none => simp [hk] at hsome
          | some k =>
            simp only [hk, Option.some.injEq, Prod.mk.injEq] at hsome
            obtain ⟨hq, _⟩ := hsome
            subst hq
            exact (findSub_eq_some_iff.mp hf).2
    · simp [process_file, hread, hsome]

/-- Witness for C4 on a file without an aside container. -/
theorem C4_existing_file_write_witness :
    ((fun p => if p = ".designs/dashboard.html" then some "<p>no sidebar</p>" else none)
        (filepathOf "dashboard.html") = some "<p>no sidebar</p>")
    ∧ ((process_file
          (fun p => if p = ".designs/dashboard.html" then some "<p>no sidebar</p>" else none)
          "dashboard.html" "Dashboard").writes
        = [(filepathOf "dashboard.html",
            ensure_icon (sub_aside (get_sidebar "Dashboard") "<p>no sidebar</p>"))]
    ∧ (findAsideSpan ("<p>no sidebar</p>" : String).data = none →
        sub_aside (get_sidebar "Dashboard") "<p>no sidebar</p>" = "<p>no sidebar</p>"
        ∧ ("Warning: No aside tag found in " ++ "dashboard.html")
            ∈ (process_file
                (fun p => if p = ".designs/dashboard.html" then some "<p>no sidebar</p>" else none)
                "dashboard.html" "Dashboard").logs)
    ∧ (∀ p e, findAsideSpan ("<p>no sidebar</p>" : String).data = some (p, e) →
        sub_aside (get_sidebar "Dashboard") "<p>no sidebar</p>"
          = ⟨("<p>no sidebar</p>" : String).data.take p ++ (get_sidebar "Dashboard").data
              ++ ("<p>no sidebar</p>" : String).data.drop e⟩
        ∧ (∀ i, i < p → ¬ occursAt ("<aside").data ("<p>no sidebar</p>" : String).data i)
        ∧ ("Updated sidebar in " ++ "dashboard.html")
            ∈ (process_file
                (fun p => if p = ".designs/dashboard.html" then some "<p>no sidebar</p>" else none)
                "dashboard.html" "Dashboard").logs)) :=
  ⟨by decide,
   C4_existing_file_write _ "dashboard.html" "Dashboard" "<p>no sidebar</p>" (by decide)⟩

/-- C5: running the patcher again on an already-patched document (the
fragment for the page, embedded in text with no earlier `<aside` and with
the icon-family substring present) returns the document byte-identically. -/
theorem C5_second_run_idempotent (pn : String) (pre post : List Char)
    (hpre : ∀ i, i < pre.length →
      ¬ occursAt ("<aside").data (pre ++ (get_sidebar pn).data ++ post) i)
    (hicon : containsSub iconFam ⟨pre ++ (get_sidebar pn).data ++ post⟩ = true) :
    patch_content pn ⟨pre ++ (get_sidebar pn).data ++ post⟩
      = ⟨pre ++ (get_sidebar pn).data ++ post⟩ := by
  have hdecomp : pre ++ (get_sidebar pn).data ++ post
      = pre ++ ("<aside").data ++ (" class=\"w-64 bg-surface-light dark:bg-surface-dark border-r border-border-light dark:border-border-dark flex flex-col h-full flex-shrink-0 z-20\"").data ++ (">").data
          ++ joinL (sidebar_mid pn) ++ ("</aside>").data ++ post := by
    conv_lhs => rw [get_sidebar_data, aside_open_eq]
    simp [List.append_assoc]
  have hstr : (⟨pre ++ (get_sidebar pn).data ++ post⟩ : String)
      = ⟨pre ++ ("<aside").data ++ (" class=\"w-64 bg-surface-light dark:bg-surface-dark border-r border-border-light dark:border-border-dark flex flex-col h-full flex-shrink-0 z-20\"").data ++ (">").data
          ++ joinL (sidebar_mid pn) ++ ("</aside>").data ++ post⟩ :=
    congrArg String.mk hdecomp
  have hpre2 : ∀ i, i < pre.length →
      ¬ occursAt ("<aside").data
        (pre ++ ("<aside").data ++ (" class=\"w-64 bg-surface-light dark:bg-surface-dark border-r border-border-light dark:border-border-dark flex flex-col h-full flex-shrink-0 z-20\"").data ++ (">").data
          ++ joinL (sidebar_mid pn) ++ ("</aside>").data ++ post) i := by
    intro i hi
    rw [← hdecomp]
    exact hpre i hi
  have hsub : sub_aside (get_sidebar pn) ⟨pre ++ (get_sidebar pn).data ++ post⟩
      = ⟨pre ++ (get_sidebar pn).data ++ post⟩ := by
    rw [hstr]
    rw [sub_aside_decomp (get_sidebar pn) pre ((" class=\"w-64 bg-surface-light dark:bg-surface-dark border-r border-border-light dark:border-border-dark flex flex-col h-full flex-shrink-0 z-20\"").data)
        (joinL (sidebar_mid pn)) post (by decide) hpre2 (sidebar_mid_noPre pn)]
    exact hstr
  unfold patch_content
  rw [hsub]
  unfold ensure_icon
  rw [hicon]
  rfl

/-- Witness for C5: the fragment for "Dashboard" preceded by the inserted
stylesheet link. -/
theorem C5_second_run_idempotent_witness :
    (∀ i, i < icon_link.data.length →
      ¬ occursAt ("<aside").data
        (icon_link.data ++ (get_sidebar "Dashboard").data ++ ([] : List Char)) i)
    ∧ containsSub iconFam
        ⟨icon_link.data ++ (get_sidebar "Dashboard").data ++ ([] : List Char)⟩ = true
    ∧ patch_content "Dashboard"
        ⟨icon_link.data ++ (get_sidebar "Dashboard").data ++ ([] : List Char)⟩
      = ⟨icon_link.data ++ (get_sidebar "Dashboard").data ++ ([] : List Char)⟩ :=
  ⟨by decide, by decide,
   C5_second_run_idempotent "Dashboard" icon_link.data [] (by decide) (by decide)⟩

/-- C6: when the searched container holds a nested occurrence of the same
closing tag, the lazy regex ends the match at the first inner closing tag,
so the replacement splices the fragment over the truncated span and the
remainder of the original container (still holding a closing tag) survives
verbatim in the output. -/
theorem C6_nested_close_truncates (pn : String) (pre A B rest : List Char)
    (hA : ∀ ch ∈ A, ch ≠ '>')
    (hpre : ∀ i, i < pre.length →
      ¬ occursAt ("<aside").data
        (pre ++ ("<aside").data ++ A ++ (">").data ++ B ++ ("</aside>").data ++ rest) i)
    (hB : ∀ i, i < B.length →
      ¬ occursAt ("</aside>").data (B ++ ("</aside>").data) i)
    (hnest : containsSub "</aside>" ⟨rest⟩ = true) :
    findAsideSpan
        (pre ++ ("<aside").data ++ A ++ (">").data ++ B ++ ("</aside>").data ++ rest)
      = some (pre.length, pre.length + 6 + A.length + 1 + B.length + 8)
    ∧ sub_aside (get_sidebar pn)
        ⟨pre ++ ("<aside").data ++ A ++ (">").data ++ B ++ ("</aside>").data ++ rest⟩
      = ⟨pre ++ (get_sidebar pn).data ++ rest⟩
    ∧ containsSub "</aside>" ⟨rest⟩ = true :=
  ⟨findAsideSpan_decomp pre A B rest hA hpre hB,
   sub_aside_decomp (get_sidebar pn) pre A B rest hA hpre hB,
   hnest⟩

/-- Witness for C6 on a document with a nested aside. -/
theorem C6_nested_close_truncates_witness :
    findAsideSpan
        (([] : List Char) ++ ("<aside").data ++ (" id=\"outer\"").data ++ (">").data
          ++ ("<aside id=\"inner\">X").data ++ ("</aside>").data ++ ("Y</aside>").data)
      = some (([] : List Char).length,
          ([] : List Char).length + 6 + (" id=\"outer\"").data.length + 1
            + ("<aside id=\"inner\">X").data.length + 8)
    ∧ sub_aside (get_sidebar "Dashboard")
        ⟨([] : List Char) ++ ("<aside").data ++ (" id=\"outer\"").data ++ (">").data
          ++ ("<aside id=\"inner\">X").data ++ ("</aside>").data ++ ("Y</aside>").data⟩
      = ⟨([] : List Char) ++ (get_sidebar "Dashboard").data ++ ("Y</aside>").data⟩
    ∧ containsSub "</aside>" ⟨("Y</aside>").data⟩ = true :=
  C6_nested_close_truncates "Dashboard" [] ((" id=\"outer\"").data)
    (("<aside id=\"inner\">X").data) (("Y</aside>").data)
    (by decide) (by decide) (by decide) (by decide)

/-- C7: the stylesheet step is the identity when the icon-family substring is
present; otherwise it is exactly the replace-on-`</head>` operation, and
when the head marker is also absent that operation returns the text
byte-identically, raising no error. -/
theorem C7_stylesheet_assurance (s : String) :
    (containsSub iconFam s = true → ensure_icon s = s)
    ∧ (containsSub iconFam s = false →
        ensure_icon s = strReplace s "</head>" (icon_link ++ "\n</head>"))
    ∧ (containsSub iconFam s = false → containsSub "</head>" s = false →
        ensure_icon s = s) := by
  refine ⟨fun h => by simp [ensure_icon, h], fun h => by simp [ensure_icon, h], ?_⟩
  intro h hh
  have hno := containsSub_eq_false_iff.mp hh
  unfold ensure_icon
  rw [h, if_neg Bool.false_ne_true]
  unfold strReplace
  rw [replaceAllL_of_no_occ hno]

/-- Witness for C7 on three small documents. -/
theorem C7_stylesheet_assurance_witness :
    (containsSub iconFam icon_link = true ∧ ensure_icon icon_link = icon_link)
    ∧ (containsSub iconFam "<head></head>" = false
        ∧ ensure_icon "<head></head>"
            = strReplace "<head></head>" "</head>" (icon_link ++ "\n</head>"))
    ∧ (containsSub iconFam "<q>" = false ∧ containsSub "</head>" "<q>" = false
        ∧ ensure_icon "<q>" = "<q>") :=
  ⟨⟨by decide, (C7_stylesheet_assurance icon_link).1 (by decide)⟩,
   ⟨by decide, (C7_stylesheet_assurance "<head></head>").2.1 (by decide)⟩,
   ⟨by decide, by decide, (C7_stylesheet_assurance "<q>").2.2 (by decide) (by decide)⟩⟩

/-- C8: for a configured path missing from the filesystem, the loop emits
exactly the skip notice and performs no read and no write: no file is
created and the document set is untouched for that entry. -/
theorem C8_missing_file_skip (fs : String → Option String) (fn pn : String)
    (h : fs (filepathOf fn) = none) :
    (process_file fs fn pn).reads = []
    ∧ (process_file fs fn pn).writes = []
    ∧ (process_file fs fn pn).logs = ["Skipping " ++ fn ++ ", does not exist"] := by
  refine ⟨?_, ?_, ?_⟩ <;> simp [process_file, h]

/-- Witness for C8 on an empty filesystem. -/
theorem C8_missing_file_skip_witness :
    ((fun _ : String => (none : Option String)) (filepathOf "dashboard.html") = none)
    ∧ (process_file (fun _ => none) "dashboard.html" "Dashboard").reads = []
    ∧ (process_file (fun _ => none) "dashboard.html" "Dashboard").writes = []
    ∧ (process_file (fun _ => none) "dashboard.html" "Dashboard").logs
        = ["Skipping " ++ "dashboard.html" ++ ", does not exist"] :=
  ⟨rfl,
   (C8_missing_file_skip (fun _ => none) "dashboard.html" "Dashboard" rfl).1,
   (C8_missing_file_skip (fun _ => none) "dashboard.html" "Dashboard" rfl).2.1,
   (C8_missing_file_skip (fun _ => none) "dashboard.html" "Dashboard" rfl).2.2⟩

/-- C9: the fragment builder is a total function of the active-page string:
for every input, including labels matching no nav link, it yields a
nonempty fragment beginning with the container's opening tag. -/
theorem C9_get_sidebar_total (a : String) :
    (get_sidebar a).data ≠ [] ∧ ("<aside").data <+: (get_sidebar a).data := by
  rw [get_sidebar_data]
  constructor
  · exact List.append_ne_nil_of_ne_nil_left (by decide) _
  · exact prefix_append_of_prefix _ (by decide)


/-- C10: when the icon-family substring is absent and the document text
contains more than one occurrence of the closing head-marker `</head>` —
that is, it decomposes into `n + 1 ≥ 3` marker-free segments separated by
`n ≥ 2` copies of the marker — the stylesheet-link string is inserted
before every one of the `n` occurrences, not only before the first. -/
theorem C10_inserted_before_every_head (segs : List (List Char))
    (hn : 3 ≤ segs.length)
    (hclean : sepCleanB ("</head>").data segs = true)
    (hicon : containsSub iconFam ⟨sepJoin ("</head>").data segs⟩ = false) :
    ensure_icon ⟨sepJoin ("</head>").data segs⟩
      = ⟨sepJoin (icon_link ++ "\n</head>").data segs⟩ := by
  unfold ensure_icon
  rw [hicon, if_neg Bool.false_ne_true]
  unfold strReplace
  apply congrArg String.mk
  exact replaceAllL_sepJoin (by decide) segs hclean

/-- Witness for C10 on a document with three head markers. -/
theorem C10_inserted_before_every_head_witness :
    3 ≤ ([("<html><head>").data, ("<q>").data, ("<r>").data,
          ("</html>").data] : List (List Char)).length
    ∧ sepCleanB ("</head>").data
        [("<html><head>").data, ("<q>").data, ("<r>").data, ("</html>").data] = true
    ∧ containsSub iconFam
        ⟨sepJoin ("</head>").data
          [("<html><head>").data, ("<q>").data, ("<r>").data, ("</html>").data]⟩ = false
    ∧ ensure_icon
        ⟨sepJoin ("</head>").data
          [("<html><head>").data, ("<q>").data, ("<r>").data, ("</html>").data]⟩
      = ⟨sepJoin (icon_link ++ "\n</head>").data
          [("<html><head>").data, ("<q>").data, ("<r>").data, ("</html>").data]⟩ :=
  ⟨by decide, by decide, by decide,
   C10_inserted_before_every_head
     [("<html><head>").data, ("<q>").data, ("<r>").data, ("</html>").data]
     (by decide) (by decide) (by decide)⟩

end UpdatePages
